import Mathlib

set_option maxRecDepth 100000

/-!
# Shallow embedding of `src/sales_scraper.py` (`UneguiScraper`)

This file embeds the crawl/extract engine of the repository — retrying HTTP
wrapper, BeautifulSoup-style field extraction, URL dedup cache, pagination,
the periodic-flush ad loop, and the CSV store — as executable Lean
definitions, and proves the specification claims about them.

Modelling conventions:
* Machine behaviour that the program consumes as a capability (the network,
  the HTML parser, the filesystem, the clock) is passed in as explicit
  oracles / state values.
* `hashlib.md5` is embedded as a full executable MD5 over the UTF-8 bytes of
  the input string, with `Nat` arithmetic mod `2^32`.
* A parsed document (`soup`) is a flattened preorder traversal of the DOM:
  a list of nodes, each carrying its tag, class list, attributes, rendered
  text and nesting depth.  "Find" is first match in the list,
  `find_next` is first match in the tail after the found node, and the
  descendants of a node are the maximal following run of strictly deeper
  nodes: exactly the document-order semantics the scraper relies on.
-/

namespace UneguiScraperModel

/-! ## Constants (`sales_scraper.py` lines 22-26) -/

/-- `MAX_RETRIES = 3` -/
def MAX_RETRIES : Nat := 3

/-! ## MD5 (the `hashlib.md5(...).hexdigest()` capability used by
`generate_ad_id`), implemented in full over `Nat` arithmetic mod `2^32`. -/

/-- `2^32`, the word modulus of MD5. -/
def w32 : Nat := 4294967296

/-- 32-bit bitwise complement (argument assumed `< 2^32`). -/
def not32 (x : Nat) : Nat := Nat.xor x 4294967295

/-- 32-bit left rotation of `x` (assumed `< 2^32`) by `c` (assumed `≤ 32`). -/
def rotl32 (x c : Nat) : Nat := (x % 2 ^ (32 - c)) * 2 ^ c + x / 2 ^ (32 - c)

/-- The MD5 sine constant table `T[i] = ⌊|sin(i+1)| · 2^32⌋` (RFC 1321). -/
def md5K : List Nat :=
  [3614090360, 3905402710, 606105819, 3250441966, 4118548399, 1200080426,
   2821735955, 4249261313, 1770035416, 2336552879, 4294925233, 2304563134,
   1804603682, 4254626195, 2792965006, 1236535329, 4129170786, 3225465664,
   643717713, 3921069994, 3593408605, 38016083, 3634488961, 3889429448,
   568446438, 3275163606, 4107603335, 1163531501, 2850285829, 4243563512,
   1735328473, 2368359562, 4294588738, 2272392833, 1839030562, 4259657740,
   2763975236, 1272893353, 4139469664, 3200236656, 681279174, 3936430074,
   3572445317, 76029189, 3654602809, 3873151461, 530742520, 3299628645,
   4096336452, 1126891415, 2878612391, 4237533241, 1700485571, 2399980690,
   4293915773, 2240044497, 1873313359, 4264355552, 2734768916, 1309151649,
   4149444226, 3174756917, 718787259, 3951481745]

/-- The MD5 per-round left-rotation amounts (RFC 1321). -/
def md5S : List Nat :=
  [7, 12, 17, 22, 7, 12, 17, 22, 7, 12, 17, 22, 7, 12, 17, 22,
   5, 9, 14, 20, 5, 9, 14, 20, 5, 9, 14, 20, 5, 9, 14, 20,
   4, 11, 16, 23, 4, 11, 16, 23, 4, 11, 16, 23, 4, 11, 16, 23,
   6, 10, 15, 21, 6, 10, 15, 21, 6, 10, 15, 21, 6, 10, 15, 21]

/-- UTF-8 encoding of one code point as a byte list (`str.encode()`). -/
def encodeChar (c : Char) : List Nat :=
  let n := c.toNat
  if n < 128 then [n]
  else if n < 2048 then [192 + n / 64, 128 + n % 64]
  else if n < 65536 then [224 + n / 4096, 128 + n / 64 % 64, 128 + n % 64]
  else [240 + n / 262144, 128 + n / 4096 % 64, 128 + n / 64 % 64, 128 + n % 64]

/-- UTF-8 byte sequence of a string (Python's `url.encode()`). -/
def utf8Bytes (s : String) : List Nat := (s.data.map encodeChar).flatten

/-- Little-endian byte decomposition of `n` into `k` bytes. -/
def leBytes : Nat → Nat → List Nat
  | 0, _ => []
  | k + 1, n => n % 256 :: leBytes k (n / 256)

/-- MD5 padding: append `0x80`, zero-pad to 56 mod 64, then the 64-bit
little-endian bit length. -/
def md5Pad (msg : List Nat) : List Nat :=
  let z := (119 - msg.length % 64) % 64
  msg ++ [128] ++ List.replicate z 0 ++ leBytes 8 ((msg.length * 8) % 2 ^ 64)

/-- Word `j` (little-endian 32-bit) of a 64-byte chunk. -/
def chunkWord (chunk : List Nat) (j : Nat) : Nat :=
  chunk.getD (4 * j) 0 + 256 * chunk.getD (4 * j + 1) 0 +
    65536 * chunk.getD (4 * j + 2) 0 + 16777216 * chunk.getD (4 * j + 3) 0

/-- One of the 64 MD5 steps on state `(a, b, c, d)` for chunk words `M`. -/
def md5Step (M : Nat → Nat) (st : Nat × Nat × Nat × Nat) (i : Nat) :
    Nat × Nat × Nat × Nat :=
  let a := st.1
  let b := st.2.1
  let c := st.2.2.1
  let d := st.2.2.2
  let fg : Nat × Nat :=
    if i < 16 then (Nat.lor (Nat.land b c) (Nat.land (not32 b) d), i)
    else if i < 32 then
      (Nat.lor (Nat.land d b) (Nat.land (not32 d) c), (5 * i + 1) % 16)
    else if i < 48 then (Nat.xor b (Nat.xor c d), (3 * i + 5) % 16)
    else (Nat.xor c (Nat.lor b (not32 d)), 7 * i % 16)
  let f := (fg.1 + a + md5K.getD i 0 + M fg.2) % w32
  (d, (b + rotl32 f (md5S.getD i 0)) % w32, b, c)

/-- Process one 64-byte chunk: 64 steps, then add into the running state. -/
def md5Chunk (st : Nat × Nat × Nat × Nat) (chunk : List Nat) :
    Nat × Nat × Nat × Nat :=
  let r := (List.range 64).foldl (md5Step (chunkWord chunk)) st
  ((st.1 + r.1) % w32, (st.2.1 + r.2.1) % w32,
   (st.2.2.1 + r.2.2.1) % w32, (st.2.2.2 + r.2.2.2) % w32)

/-- Split a byte list into 64-byte chunks. -/
def chunks64 : List Nat → List (List Nat)
  | [] => []
  | b :: bs => (b :: bs).take 64 :: chunks64 ((b :: bs).drop 64)
termination_by l => l.length
decreasing_by simp [List.length_drop]; omega

/-- MD5 digest (16 bytes) of a byte list. -/
def md5Bytes (msg : List Nat) : List Nat :=
  let st := (chunks64 (md5Pad msg)).foldl md5Chunk
    (1732584193, 4023233417, 2562383102, 271733878)
  leBytes 4 st.1 ++ leBytes 4 st.2.1 ++ leBytes 4 st.2.2.1 ++ leBytes 4 st.2.2.2

/-- Lower-case hex digit. -/
def hexDigit (n : Nat) : Char :=
  if n < 10 then Char.ofNat (48 + n) else Char.ofNat (87 + n)

/-- Two-digit lower-case hex of a byte. -/
def byteHex (b : Nat) : List Char := [hexDigit (b / 16), hexDigit (b % 16)]

/-- `hashlib.md5(s.encode()).hexdigest()`. -/
def md5hex (s : String) : String :=
  String.mk ((md5Bytes (utf8Bytes s)).map byteHex).flatten

/-! ## String capabilities

The Python `str` methods the scraper uses (`strip`, `split`, `replace`,
`startswith`/`endswith`-style matching, lexicographic `max`) are embedded
as structurally recursive functions on the character list of a string, so
every theorem about them can be settled by evaluation. -/

/-- `p` is a leading segment of `s` (used for `endswith` via reversal,
and for occurrence search in `split`/`replace`). -/
def strStartsWith (s p : String) : Bool := p.data.isPrefixOf s.data

/-- `s.endswith(p)`. -/
def strEndsWith (s p : String) : Bool :=
  p.data.reverse.isPrefixOf s.data.reverse

/-- `s.strip()`: drop leading and trailing whitespace. -/
def strTrim (s : String) : String :=
  String.mk
    (((s.data.dropWhile Char.isWhitespace).reverse.dropWhile
        Char.isWhitespace).reverse)

/-- `split(sep)` on character lists, non-empty `sep`: split at each
leftmost non-overlapping occurrence.  The `fuel` argument only bounds the
recursion (each step consumes at least one character, so any
`fuel > length` is enough); it keeps the recursion structural so that the
kernel can evaluate it. -/
def listSplitOnF (sep : List Char) : Nat → List Char → List (List Char)
  | 0, l => [l]
  | _ + 1, [] => [[]]
  | fuel + 1, c :: cs =>
    if 0 < sep.length ∧ sep.isPrefixOf (c :: cs) then
      [] :: listSplitOnF sep fuel ((c :: cs).drop sep.length)
    else
      match listSplitOnF sep fuel cs with
      | [] => [[c]]
      | p :: ps => (c :: p) :: ps

/-- `split(sep)` on character lists with sufficient fuel. -/
def listSplitOn (sep l : List Char) : List (List Char) :=
  listSplitOnF sep (l.length + 1) l

/-- `s.split(sep)` (for the empty separator, `[s]`, like `String.splitOn`;
the scraper only splits on `"—"`). -/
def strSplitOn (s sep : String) : List String :=
  if sep.data.isEmpty then [s]
  else (listSplitOn sep.data s.data).map String.mk

/-- `replace(old, new)` on character lists, non-empty `old`: rewrite each
leftmost non-overlapping occurrence, with the same structural `fuel`
device as `listSplitOnF`. -/
def listReplaceF (old new : List Char) : Nat → List Char → List Char
  | 0, l => l
  | _ + 1, [] => []
  | fuel + 1, c :: cs =>
    if 0 < old.length ∧ old.isPrefixOf (c :: cs) then
      new ++ listReplaceF old new fuel ((c :: cs).drop old.length)
    else
      c :: listReplaceF old new fuel cs

/-- `replace(old, new)` on character lists with sufficient fuel. -/
def listReplace (old new l : List Char) : List Char :=
  listReplaceF old new (l.length + 1) l

/-- `s.replace(old, new)` (identity for empty `old`; the scraper only
replaces non-empty patterns). -/
def strReplace (s old new : String) : String :=
  if old.data.isEmpty then s
  else String.mk (listReplace old.data new.data s.data)

/-- Lexicographic-by-code-point `<` on character lists (Python string
comparison, used by `max(files)`). -/
def listLt : List Char → List Char → Bool
  | _, [] => false
  | [], _ :: _ => true
  | a :: as, b :: bs =>
    if a.toNat < b.toNat then true
    else if b.toNat < a.toNat then false
    else listLt as bs

/-- `a < b` on strings, by code points. -/
def strLt (a b : String) : Bool := listLt a.data b.data

/-! ## Parsed documents (the BeautifulSoup capability)

A document is its preorder traversal: a list of nodes in document order.
`depth` is the nesting depth, so the descendants of a node are the maximal
run of strictly deeper nodes immediately after it. -/

/-- One DOM node as the scraper observes it: tag name, class list,
attributes, rendered text (`.text` / the matched string), nesting depth. -/
structure Node where
  tag : String
  classes : List String
  attrs : List (String × String)
  text : String
  depth : Nat
deriving Repr, DecidableEq

/-- A parsed document: preorder list of nodes. -/
abbrev Soup := List Node

/-- First node satisfying `p` together with the list of nodes after it in
document order (`soup.find(...)` plus the material for `find_next`). -/
def findWithRest (p : Node → Bool) : List Node → Option (Node × List Node)
  | [] => none
  | e :: es => if p e then some (e, es) else findWithRest p es

/-- The descendants of a node found with tail `rest`: the maximal run of
strictly deeper following nodes (`element.find_all(...)` search space). -/
def descendantsOf (e : Node) (rest : List Node) : List Node :=
  rest.takeWhile fun d => e.depth < d.depth

/-- `span` with exact text `key` (`soup.find('span', text=key)`). -/
def isSpanWithText (key : String) (e : Node) : Bool :=
  e.tag == "span" && e.text == key

/-- `a` with class `value-chars` (`soup.find('a', class_='value-chars')`). -/
def isValueCharsAnchor (e : Node) : Bool :=
  e.tag == "a" && e.classes.contains "value-chars"

/-! ## Field extractors (`get_value_chars`, `get_text_value`,
`sales_scraper.py` lines 92-108) -/

/-- `get_value_chars`: find the label span, then the next `a.value-chars`
anywhere after it in document order; absent pieces yield `'N/A'`. -/
def get_value_chars (soup : Soup) (key : String) : String :=
  match findWithRest (isSpanWithText key) soup with
  | some (_, rest) =>
    match findWithRest isValueCharsAnchor rest with
    | some (vc, _) => strTrim vc.text
    | none => "N/A"
  | none => "N/A"

/-- `get_text_value`: find the label span, then the next span after it; its
text is returned unless that span contains an `a.value-chars` descendant
(the guard `not next_span.find('a', class_='value-chars')`); any absent
piece yields `'N/A'`. -/
def get_text_value (soup : Soup) (key : String) : String :=
  match findWithRest (isSpanWithText key) soup with
  | some (_, rest) =>
    match findWithRest (fun e => e.tag == "span") rest with
    | some (ns, rest2) =>
      if (descendantsOf ns rest2).any isValueCharsAnchor then "N/A"
      else strTrim ns.text
    | none => "N/A"
  | none => "N/A"

/-! ## Scraper state, cache, and ad id
(`__init__`, `load_scraped_urls`, `save_scraped_url`, `generate_ad_id`) -/

/-- The `UneguiScraper` instance state the claims depend on: constructor
arguments and the in-memory dedup cache `self.scraped_urls` (the persistent
cache file and the set are kept in sync by `save_scraped_url`, so one list
models both). -/
structure ScraperState where
  base_url : String
  max_pages : Nat
  scraped_urls : List String
deriving Repr, DecidableEq

/-- `save_scraped_url`: append the URL to the cache file and the set. -/
def save_scraped_url (self : ScraperState) (url : String) : ScraperState :=
  { self with scraped_urls := self.scraped_urls ++ [url] }

/-- `generate_ad_id`: `hashlib.md5(url.encode()).hexdigest()`.  A method of
the scraper (it receives `self`), but its result ignores the state. -/
def generate_ad_id (_self : ScraperState) (url : String) : String :=
  md5hex url

/-! ## `make_request` (lines 53-69)

The network is an oracle `fetch : Nat → Except String Soup` giving, per
attempt number, either the parsed successful response or the exception
message (`requests.RequestException` / non-2xx from `raise_for_status`).
The result records the returned value, the total number of HTTP attempts
made, and the log lines emitted. -/

/-- A log line relevant to the claims. -/
inductive LogEntry where
  /-- `logger.warning(f"Request failed for {url}: {cause}. Retrying ...")` -/
  | retryWarning (url : String) (cause : String)
  /-- `logger.error(f"Failed to retrieve {url} after {MAX_RETRIES} attempts: {cause}")` -/
  | failure (url : String) (cause : String)
  /-- `logger.info(...)` -/
  | info (msg : String)
deriving Repr, DecidableEq

/-- Outcome of `make_request`: the value returned to the caller, the number
of HTTP attempts issued, and the log produced. -/
structure ReqResult where
  response : Option Soup
  attempts : Nat
  log : List LogEntry
deriving Repr, DecidableEq

/-- `make_request url retry_count`: one attempt; on failure retry while
`retry_count < MAX_RETRIES`, else log the error and return `None`. -/
def make_request (url : String) (fetch : Nat → Except String Soup)
    (retry_count : Nat) : ReqResult :=
  match fetch retry_count with
  | Except.ok doc => ⟨some doc, 1, []⟩
  | Except.error e =>
    if _h : retry_count < MAX_RETRIES then
      let rest := make_request url fetch (retry_count + 1)
      ⟨rest.response, rest.attempts + 1, LogEntry.retryWarning url e :: rest.log⟩
    else
      ⟨none, 1, [LogEntry.failure url e]⟩
termination_by MAX_RETRIES - retry_count
decreasing_by simp [MAX_RETRIES] at *; omega

/-! ## `scrape_page` (lines 71-90) -/

/-- `scrape_page`: fetch the listing page; on failure return `[]`; else
collect the `href` of every `a.mask` anchor. -/
def scrape_page (url : String) (fetch : Nat → Except String Soup) :
    List String :=
  match (make_request url fetch 0).response with
  | none => []
  | some soup =>
    (soup.filter fun e => e.tag == "a" && e.classes.contains "mask").filterMap
      fun e => e.attrs.lookup "href"

/-! ## The ad record (`scrape_ad`, lines 110-203)

`ad_data` is a Python dict with a fixed literal key set; it is embedded as
an association list in insertion order, later assignments replacing the
value at an existing key. -/

/-- One extracted record: an association list field-name ↦ value. -/
abbrev AdRecord := List (String × String)

/-- `ad_data[k] = v` for a key already present: replace its value in place. -/
def setField (l : AdRecord) (k v : String) : AdRecord :=
  l.map fun p => if p.1 == k then (k, v) else p

/-- The fixed field set of every record, in dict insertion order. -/
def adFields : List String :=
  ["Шал", "Тагт", "Гараж", "Цонх", "Хаалга", "Цонхнытоо", "Барилгынявц",
   "Ашиглалтандорсонон", "Барилгындавхар", "Талбай", "Хэдэндавхарт",
   "Лизингээравахболомж", "Дүүрэг", "Байршил", "Үзсэн", "Scraped_date",
   "link", "Үнэ", "ӨрөөнийТоо", "Зарыг гарчиг", "Зарын тайлбар",
   "Нийтэлсэн", "ad_id"]

/-- The `ad_data` dict literal (lines 125-149): label-anchored lookups for
the first twelve fields and sentinels / provenance for the rest. -/
def initAdData (self : ScraperState) (soup : Soup) (url : String)
    (today : String) : AdRecord :=
  [("Шал", get_text_value soup "Шал:"),
   ("Тагт", get_text_value soup "Тагт:"),
   ("Гараж", get_text_value soup "Гараж:"),
   ("Цонх", get_text_value soup "Цонх:"),
   ("Хаалга", get_text_value soup "Хаалга:"),
   ("Цонхнытоо", get_value_chars soup "Цонхны тоо:"),
   ("Барилгынявц", get_text_value soup "Барилгынявц"),
   ("Ашиглалтандорсонон", get_text_value soup "Ашиглалтандорсонон:"),
   ("Барилгындавхар", get_value_chars soup "Барилгын давхар:"),
   ("Талбай", get_value_chars soup "Талбай:"),
   ("Хэдэндавхарт", get_value_chars soup "Хэдэн давхарт:"),
   ("Лизингээравахболомж", get_text_value soup "Лизингээравахболомж:"),
   ("Дүүрэг", "N/A"),
   ("Байршил", "N/A"),
   ("Үзсэн", "N/A"),
   ("Scraped_date", today),
   ("link", url),
   ("Үнэ", "N/A"),
   ("ӨрөөнийТоо", "N/A"),
   ("Зарыг гарчиг", "N/A"),
   ("Зарын тайлбар", "N/A"),
   ("Нийтэлсэн", "N/A"),
   ("ad_id", generate_ad_id self url)]

/-- `span` with attribute `itemprop="address"`. -/
def isAddressSpan (e : Node) : Bool :=
  e.tag == "span" && e.attrs.lookup "itemprop" == some "address"

/-- Address handling (lines 151-159): if the address span exists and its
text contains an em-dash (`'—' in address.text`, modelled as `splitOn`
producing at least two pieces), split on it and strip the first two parts
into district / location; otherwise leave both sentinels untouched. -/
def applyAddress (soup : Soup) (l : AdRecord) : AdRecord :=
  match findWithRest isAddressSpan soup with
  | some (a, _) =>
    let parts := strSplitOn a.text "—"
    if 2 ≤ parts.length then
      setField (setField l "Дүүрэг" (strTrim (parts.getD 0 "")))
        "Байршил" (strTrim (parts.getD 1 ""))
    else l
  | none => l

/-- Views count (lines 161-164): `span.counter-views`, stripped, spaces
removed. -/
def applyViews (soup : Soup) (l : AdRecord) : AdRecord :=
  match findWithRest (fun e => e.tag == "span" && e.classes.contains "counter-views") soup with
  | some (v, _) => setField l "Үзсэн" (strReplace (strTrim v.text) " " "")
  | none => l

/-- Digits to a number (for the price normalization). -/
def digitsToNat (ds : List Char) : Nat :=
  ds.foldl (fun a c => a * 10 + (c.toNat - 48)) 0

/-- Models `str(int(float(price)))` for plain decimal literals (optional
sign, digits, optional fractional part, surrounding whitespace): truncation
toward zero.  Exotic `float` syntax (exponents, `inf`, `nan`) is not
modelled; there — as on non-numeric input — the code's bare `except: pass`
keeps the original string, which corresponds to `none` here. -/
def pyIntOfDecimal (s0 : String) : Option String :=
  let s := (strTrim s0).data
  let negBody : Bool × List Char :=
    match s with
    | '-' :: rest => (true, rest)
    | '+' :: rest => (false, rest)
    | _ => (false, s)
  let render : Nat → String := fun n =>
    (if negBody.1 && n ≠ 0 then "-" else "") ++ toString n
  match listSplitOn ['.'] negBody.2 with
  | [ip] =>
    if !ip.isEmpty && ip.all Char.isDigit then
      some (render (digitsToNat ip))
    else none
  | [ip, fp] =>
    if (!ip.isEmpty || !fp.isEmpty) && ip.all Char.isDigit
        && fp.all Char.isDigit then
      some (render (digitsToNat ip))
    else none
  | _ => none

/-- Price (lines 166-175): `meta[itemprop=price]`'s `content` attribute
(default `'N/A'`), normalized to an integer string when numeric. -/
def applyPrice (soup : Soup) (l : AdRecord) : AdRecord :=
  match findWithRest (fun e => e.tag == "meta" && e.attrs.lookup "itemprop" == some "price") soup with
  | some (m, _) =>
    let content := (m.attrs.lookup "content").getD "N/A"
    let price := match pyIntOfDecimal content with
      | some n => n
      | none => content
    setField l "Үнэ" price
  | none => l

/-- Room count (lines 177-180): last span inside
`div.wrap.js-single-item__location`. -/
def applyRoomCount (soup : Soup) (l : AdRecord) : AdRecord :=
  match findWithRest (fun e => e.tag == "div" && e.classes == ["wrap", "js-single-item__location"]) soup with
  | some (d, rest) =>
    let spans := (descendantsOf d rest).filter fun e => e.tag == "span"
    match spans.getLast? with
    | some s => setField l "ӨрөөнийТоо" (strTrim s.text)
    | none => l
  | none => l

/-- Title (lines 182-185): `h1.title-announcement`, stripped, newlines
removed. -/
def applyTitle (soup : Soup) (l : AdRecord) : AdRecord :=
  match findWithRest (fun e => e.tag == "h1" && e.classes.contains "title-announcement") soup with
  | some (t, _) => setField l "Зарыг гарчиг" (strReplace (strTrim t.text) "\n" "")
  | none => l

/-- Description (lines 187-190): `div.announcement-description`. -/
def applyDescription (soup : Soup) (l : AdRecord) : AdRecord :=
  match findWithRest (fun e => e.tag == "div" && e.classes.contains "announcement-description") soup with
  | some (t, _) => setField l "Зарын тайлбар" (strReplace (strTrim t.text) "\n" "")
  | none => l

/-- Posted date (lines 192-195): `span.date-meta`, label stripped. -/
def applyPostedDate (soup : Soup) (l : AdRecord) : AdRecord :=
  match findWithRest (fun e => e.tag == "span" && e.classes.contains "date-meta") soup with
  | some (t, _) => setField l "Нийтэлсэн" (strReplace (strTrim t.text) "Нийтэлсэн: " "")
  | none => l

/-- The full record produced by `scrape_ad`'s extraction block: the dict
literal followed by the seven special-cased field assignments, in program
order. -/
def buildAdData (self : ScraperState) (soup : Soup) (url : String)
    (today : String) : AdRecord :=
  applyPostedDate soup (applyDescription soup (applyTitle soup
    (applyRoomCount soup (applyPrice soup (applyViews soup
      (applyAddress soup (initAdData self soup url today)))))))

/-! ## `scrape_ad` (lines 110-203) -/

/-- An observable event of the run, for ordering arguments: an HTTP request
for an ad, an append to the persistent dedup cache, a store flush. -/
inductive Ev where
  | request (url : String)
  | cacheWrite (url : String)
  | flush (snapshot : List AdRecord)
deriving Repr, DecidableEq

/-- Outcome of `scrape_ad`: the value returned, the updated scraper state,
the number of HTTP attempts issued, the log, and the emitted events. -/
structure ScrapeAdResult where
  record : Option AdRecord
  state : ScraperState
  fetches : Nat
  log : List LogEntry
  events : List Ev
deriving Repr, DecidableEq

/-- `scrape_ad`: skip (returning `None`, touching nothing, issuing no HTTP
request) when the URL is cached; else fetch with retry, and on success
build the record, mark the URL as scraped, and return the record.  The
extraction block is total in this model, so the enclosing
`except`-return-`None` arm (line 201) is unreachable. -/
def scrape_ad (self : ScraperState) (url : String)
    (fetch : Nat → Except String Soup) (today : String) : ScrapeAdResult :=
  if url ∈ self.scraped_urls then
    ⟨none, self, 0, [LogEntry.info ("Skipping already scraped ad: " ++ url)], []⟩
  else
    let req := make_request url fetch 0
    match req.response with
    | none => ⟨none, self, req.attempts, req.log, [Ev.request url]⟩
    | some soup =>
      let ad_data := buildAdData self soup url today
      ⟨some ad_data, save_scraped_url self url, req.attempts, req.log,
        [Ev.request url, Ev.cacheWrite url]⟩

/-! ## Pagination (`run`, lines 219-230) -/

/-- The listing-page URL: the base for page 1, `?page=n` beyond. -/
def page_url (base : String) (n : Nat) : String :=
  if n == 1 then base else base ++ "?page=" ++ toString n

/-- The page loop from page `page_num` with `fuel` pages of budget left:
collect each page's links, stopping the moment a page yields none.
Returns the visited page numbers and the accumulated links. -/
def collectLoop (pageLinks : Nat → List String) :
    Nat → Nat → List Nat × List String
  | _, 0 => ([], [])
  | page_num, fuel + 1 =>
    let links := pageLinks page_num
    if links.isEmpty then ([page_num], [])
    else
      let r := collectLoop pageLinks (page_num + 1) fuel
      (page_num :: r.1, links ++ r.2)

/-- `for page_num in range(1, max_pages + 1)` with the zero-links `break`. -/
def collectLinks (pageLinks : Nat → List String) (max_pages : Nat) :
    List Nat × List String :=
  collectLoop pageLinks 1 max_pages

/-! ## The ad loop with periodic flush (`run`, lines 234-253) -/

/-- `f"https://www.unegui.mn{link}"` -/
def fullUrl (link : String) : String := "https://www.unegui.mn" ++ link

/-- The controller's loop state: the accumulated `all_data` batch, the
scraper state, the successive flushed snapshots, the event trace, and the
total number of HTTP attempts issued. -/
structure LoopState where
  all_data : List AdRecord
  self : ScraperState
  flushes : List (List AdRecord)
  trace : List Ev
  fetches : Nat
deriving Repr, DecidableEq

/-- `for i, link in enumerate(all_links, 1)`: scrape each ad, append a
successful record to the batch, and flush the whole batch every 20 links. -/
def adLoop (fetch : String → Nat → Except String Soup) (today : String) :
    List String → Nat → LoopState → LoopState
  | [], _, st => st
  | link :: rest, i, st =>
    let u := fullUrl link
    let r := scrape_ad st.self u (fetch u) today
    let data1 := match r.record with
      | some d => st.all_data ++ [d]
      | none => st.all_data
    let st1 : LoopState :=
      ⟨data1, r.state, st.flushes, st.trace ++ r.events, st.fetches + r.fetches⟩
    let st2 : LoopState :=
      if i % 20 == 0 then
        ⟨st1.all_data, st1.self, st1.flushes ++ [st1.all_data],
          st1.trace ++ [Ev.flush st1.all_data], st1.fetches⟩
      else st1
    adLoop fetch today rest (i + 1) st2

/-- The initial loop state: `all_data` seeded from the loaded snapshot. -/
def initLoopState (existing : List AdRecord) (self : ScraperState) :
    LoopState :=
  ⟨existing, self, [], [], 0⟩

/-- The ad-scraping phase of `run`: the loop from `i = 1`, then the final
`save_data` when `all_data` is non-empty. -/
def runAds (fetch : String → Nat → Except String Soup) (today : String)
    (links : List String) (st0 : LoopState) : LoopState :=
  let st := adLoop fetch today links 1 st0
  if st.all_data.isEmpty then st
  else
    ⟨st.all_data, st.self, st.flushes ++ [st.all_data],
      st.trace ++ [Ev.flush st.all_data], st.fetches⟩

/-- `run`: collect links over the paginated listing, then scrape the ads. -/
def run (fetch : String → Nat → Except String Soup) (today : String)
    (self : ScraperState) (existing : List AdRecord) : LoopState :=
  let pageLinks := fun n =>
    scrape_page (page_url self.base_url n) (fetch (page_url self.base_url n))
  runAds fetch today (collectLinks pageLinks self.max_pages).2
    (initLoopState existing self)

/-! ## The incremental store (`load_existing_data`, `save_data`,
lines 255-276) -/

/-- The filesystem as the store sees it: the directory listing and, per
name, either the parsed tabular content or a read error. -/
structure FS where
  listing : List String
  read : String → Except String (List AdRecord)

/-- A file matching `unegui_sales_data_*.csv`. -/
def isSnapshotFile (f : String) : Bool :=
  strStartsWith f "unegui_sales_data_" && strEndsWith f ".csv"

/-- Python's `max(files)` on a non-empty string list (lexicographic). -/
def maxFile (f : String) (fs : List String) : String :=
  fs.foldl (fun a b => if strLt a b then b else a) f

/-- `load_existing_data`: empty when no `unegui_sales_data_*.csv` exists;
otherwise read the lexicographically greatest one, any exception being
swallowed into the empty table. -/
def load_existing_data (fs : FS) : List AdRecord :=
  match fs.listing.filter isSnapshotFile with
  | [] => []
  | f :: rest =>
    match fs.read (maxFile f rest) with
    | Except.ok df => df
    | Except.error _ => []

/-- The output file name `f"unegui_sales_data_{date}.csv"`. -/
def outputFile (today : String) : String :=
  "unegui_sales_data_" ++ today ++ ".csv"

/-- `save_data`: `df.to_csv(output_file, index=False)` — a full overwrite
of the destination file with exactly the given rows. -/
def save_data (fs : FS) (today : String) (all_data : List AdRecord) : FS :=
  { listing :=
      if (outputFile today) ∈ fs.listing then fs.listing
      else fs.listing ++ [outputFile today],
    read := fun f =>
      if f == outputFile today then Except.ok all_data else fs.read f }

/-! ## Derived notions used by the theorems -/

/-- The record a successful scrape of `link` produces, given the document
oracle: `buildAdData` does not depend on the scraper state, so a canonical
state is used. -/
def recFn (docFn : String → Soup) (today : String) (link : String) : AdRecord :=
  buildAdData ⟨"", 0, []⟩ (docFn (fullUrl link)) (fullUrl link) today

/-- The flush snapshots the ad loop produces from batch `base` when every
link contributes one record, starting at loop index `i`. -/
def flushSpec : List AdRecord → List AdRecord → Nat → List (List AdRecord)
  | _, [], _ => []
  | base, r :: rest, i =>
    (if i % 20 == 0 then [base ++ [r]] else []) ++
      flushSpec (base ++ [r]) rest (i + 1)

/-- The record is the one scraped from URL `u` (its `link` column is `u`). -/
def recHasUrl (u : String) (r : AdRecord) : Bool := r.lookup "link" == some u

/-- A flush event whose snapshot contains a record for URL `u`. -/
def isFlushWith (u : String) : Ev → Bool
  | Ev.flush s => s.any (recHasUrl u)
  | _ => false

/-- In trace `tr`, every store flush containing a record for `u` is
preceded by the dedup-cache append of `u`: every trace prefix that contains
such a flush already contains the cache write. -/
def cacheBeforeFlush (u : String) (tr : List Ev) : Prop :=
  ∀ n, (∃ e ∈ tr.take n, isFlushWith u e = true) →
    Ev.cacheWrite u ∈ tr.take n

/-! ## Concrete fixtures for the witnesses -/

/-- A small ad document: an address span, a label span and its value. -/
def demoSoup : Soup :=
  [⟨"span", [], [("itemprop", "address")],
    "Chingeltei —  64th khoroolol, unit 5", 1⟩,
   ⟨"span", [], [], "Шал:", 1⟩,
   ⟨"span", [], [], "паркет", 1⟩]

/-- An ad document without an em-dash in the address text. -/
def demoSoupNoDash : Soup :=
  [⟨"span", [], [("itemprop", "address")], "Chingeltei", 1⟩]

/-- A listing-page document with one `a.mask` ad link. -/
def demoListingSoup : Soup :=
  [⟨"a", ["mask"], [("href", "/adv/77")], "", 1⟩]

/-- 45 distinct ad links. -/
def demoLinks : List String := (List.range 45).map fun n => "/a" ++ toString n

/-- A network oracle that always succeeds with `demoSoup`. -/
def demoFetchOk : String → Nat → Except String Soup :=
  fun _ _ => Except.ok demoSoup

/-- A network oracle for which every attempt fails. -/
def demoFetchFail : Nat → Except String Soup :=
  fun _ => Except.error "Connection timed out"

/-- A page oracle: three pages of links, page 4 empty. -/
def demoPageLinks : Nat → List String :=
  fun n => if n == 4 then [] else ["/adv/" ++ toString n]

/-- A network oracle where exactly the page-2 listing URL is unreachable
and every other URL parses to a listing with one ad link. -/
def demoPageFetch : String → Nat → Except String Soup :=
  fun u _ =>
    if u == "https://base?page=2" then Except.error "net down"
    else Except.ok demoListingSoup

/-- A filesystem with no snapshot file. -/
def demoFSEmpty : FS := ⟨["readme.txt"], fun _ => Except.error "missing"⟩

/-- A filesystem whose only snapshot file is unreadable. -/
def demoFSCorrupt : FS :=
  ⟨["unegui_sales_data_20250101.csv"], fun _ => Except.error "corrupt"⟩

/-! # Theorems -/

/-! ## `make_request` under total failure -/

/-- If every attempt fails, `make_request` from `retry_count = 0` makes
exactly 4 attempts, returns `none` and logs three retry warnings followed
by the final error with the URL and the last cause. -/
theorem make_request_allFail (url : String)
    (fetch : Nat → Except String Soup)
    (h : ∀ n, ∃ e, fetch n = Except.error e) :
    ∃ e0 e1 e2 e3, fetch 0 = Except.error e0 ∧ fetch 1 = Except.error e1 ∧
      fetch 2 = Except.error e2 ∧ fetch 3 = Except.error e3 ∧
      make_request url fetch 0 =
        ⟨none, 4,
         [LogEntry.retryWarning url e0, LogEntry.retryWarning url e1,
          LogEntry.retryWarning url e2, LogEntry.failure url e3]⟩ := by
  obtain ⟨e0, h0⟩ := h 0
  obtain ⟨e1, h1⟩ := h 1
  obtain ⟨e2, h2⟩ := h 2
  obtain ⟨e3, h3⟩ := h 3
  refine ⟨e0, e1, e2, e3, h0, h1, h2, h3, ?_⟩
  rw [make_request, h0]
  rw [make_request, h1]
  rw [make_request, h2]
  rw [make_request, h3]
  simp [MAX_RETRIES]

/-- C1.  For a URL whose every fetch attempt fails, `make_request` makes
exactly 4 total attempts (1 initial + 3 retries, `MAX_RETRIES = 3`), then
returns `none` to the caller instead of raising, and the skip is logged —
the last log line is the error entry carrying the URL and the failure
cause. -/
theorem claim_C1_retry_budget (url : String)
    (fetch : Nat → Except String Soup)
    (h : ∀ n, ∃ e, fetch n = Except.error e) :
    (make_request url fetch 0).response = none ∧
    (make_request url fetch 0).attempts = 4 ∧
    ∃ c, fetch MAX_RETRIES = Except.error c ∧
      (make_request url fetch 0).log.getLast? =
        some (LogEntry.failure url c) := by
  obtain ⟨e0, e1, e2, e3, _, _, _, h3, heq⟩ := make_request_allFail url fetch h
  rw [heq]
  exact ⟨rfl, rfl, e3, h3, rfl⟩

/-- Witness for C1: the all-failing oracle `demoFetchFail`. -/
theorem claim_C1_retry_budget_witness :
    (make_request "https://www.unegui.mn/a" demoFetchFail 0).response = none ∧
    (make_request "https://www.unegui.mn/a" demoFetchFail 0).attempts = 4 ∧
    ∃ c, demoFetchFail MAX_RETRIES = Except.error c ∧
      (make_request "https://www.unegui.mn/a" demoFetchFail 0).log.getLast? =
        some (LogEntry.failure "https://www.unegui.mn/a" c) :=
  claim_C1_retry_budget "https://www.unegui.mn/a" demoFetchFail
    (fun _ => ⟨"Connection timed out", rfl⟩)

/-- C6.  `generate_ad_id` is a deterministic function of the URL alone:
its value is independent of the scraper state (the only other input the
method receives), and equals the MD5 hex digest of the URL's UTF-8 bytes,
so two calls on the same URL string yield the same id in any run. -/
theorem claim_C6_ad_id_deterministic (s1 s2 : ScraperState) (u : String) :
    generate_ad_id s1 u = generate_ad_id s2 u ∧
    generate_ad_id s1 u = md5hex u :=
  ⟨rfl, rfl⟩

/-- C8.  `load_existing_data` returns the empty snapshot when no
`unegui_sales_data_*.csv` exists, and when the chosen file's read raises,
the error is swallowed into the empty snapshot rather than propagated;
`save_data` fully overwrites the destination file with exactly the given
rows on every flush, whatever was there before. -/
theorem claim_C8_store_contract :
    (∀ fs : FS, fs.listing.filter isSnapshotFile = [] →
       load_existing_data fs = []) ∧
    (∀ (fs : FS) (f : String) (rest : List String) (e : String),
       fs.listing.filter isSnapshotFile = f :: rest →
       fs.read (maxFile f rest) = Except.error e →
       load_existing_data fs = []) ∧
    (∀ (fs : FS) (today : String) (d : List AdRecord),
       (save_data fs today d).read (outputFile today) = Except.ok d) := by
  refine ⟨fun fs hf => ?_, fun fs f rest e hf hr => ?_, fun fs today d => ?_⟩
  · rw [load_existing_data, hf]
  · simp only [load_existing_data, hf, hr]
  · simp [save_data]

/-- Witness for C8: a filesystem with no snapshot, one whose only snapshot
is unreadable, and an overwrite on top of the latter. -/
theorem claim_C8_store_contract_witness :
    load_existing_data demoFSEmpty = [] ∧
    load_existing_data demoFSCorrupt = [] ∧
    (save_data demoFSCorrupt "20250102" [[("link", "u")]]).read
      (outputFile "20250102") = Except.ok [[("link", "u")]] :=
  ⟨claim_C8_store_contract.1 demoFSEmpty (by decide),
   claim_C8_store_contract.2.1 demoFSCorrupt "unegui_sales_data_20250101.csv"
     [] "corrupt" (by decide) rfl,
   claim_C8_store_contract.2.2 demoFSCorrupt "20250102" [[("link", "u")]]⟩

/-! ## The ad loop over cached links -/

/-- If every link of the loop is already cached, the loop leaves the
batch, the scraper state and the HTTP-attempt count untouched. -/
theorem adLoop_allCached (fetch : String → Nat → Except String Soup)
    (today : String) :
    ∀ (links : List String) (i : Nat) (st : LoopState),
      (∀ l ∈ links, fullUrl l ∈ st.self.scraped_urls) →
      (adLoop fetch today links i st).all_data = st.all_data ∧
      (adLoop fetch today links i st).self = st.self ∧
      (adLoop fetch today links i st).fetches = st.fetches := by
  intro links
  induction links with
  | nil => exact fun _ _ _ => ⟨rfl, rfl, rfl⟩
  | cons l rest ih =>
    intro i st h
    have hl : fullUrl l ∈ st.self.scraped_urls := h l (by simp)
    simp only [adLoop, scrape_ad, if_pos hl]
    split
    · exact ih (i + 1) _ fun l' hl' => h l' (by simp [hl'])
    · exact ih (i + 1) _ fun l' hl' => h l' (by simp [hl'])

/-- C2.  A URL already in the dedup cache is skipped by `scrape_ad`
without any HTTP attempt, returning `None` and leaving the state (cache
included) unchanged; consequently a run over links that are all cached
issues zero HTTP attempts and leaves the accumulated data exactly the
loaded existing records. -/
theorem claim_C2_cached_skip :
    (∀ (self : ScraperState) (url : String)
       (fetch : Nat → Except String Soup) (today : String),
       url ∈ self.scraped_urls →
       (scrape_ad self url fetch today).record = none ∧
       (scrape_ad self url fetch today).state = self ∧
       (scrape_ad self url fetch today).fetches = 0 ∧
       (scrape_ad self url fetch today).events = []) ∧
    (∀ (fetch : String → Nat → Except String Soup) (today : String)
       (links : List String) (existing : List AdRecord)
       (self : ScraperState),
       (∀ l ∈ links, fullUrl l ∈ self.scraped_urls) →
       (runAds fetch today links (initLoopState existing self)).fetches = 0 ∧
       (runAds fetch today links (initLoopState existing self)).all_data
         = existing) := by
  constructor
  · intro self url fetch today h
    simp [scrape_ad, if_pos h]
  · intro fetch today links existing self h
    obtain ⟨hdata, _, hfetch⟩ :=
      adLoop_allCached fetch today links 1 (initLoopState existing self) h
    simp only [runAds]
    by_cases hemp :
        (adLoop fetch today links 1 (initLoopState existing self)).all_data.isEmpty
    · simp only [if_pos hemp]
      exact ⟨hfetch, hdata⟩
    · simp only [if_neg hemp]
      exact ⟨hfetch, hdata⟩

/-- Witness for C2: a cached URL is skipped, and a run whose two links are
both cached does not fetch and keeps the loaded batch. -/
theorem claim_C2_cached_skip_witness :
    ((scrape_ad ⟨"b", 90, ["u1"]⟩ "u1" demoFetchFail "d").record = none ∧
     (scrape_ad ⟨"b", 90, ["u1"]⟩ "u1" demoFetchFail "d").state
       = ⟨"b", 90, ["u1"]⟩ ∧
     (scrape_ad ⟨"b", 90, ["u1"]⟩ "u1" demoFetchFail "d").fetches = 0 ∧
     (scrape_ad ⟨"b", 90, ["u1"]⟩ "u1" demoFetchFail "d").events = []) ∧
    ((runAds demoFetchOk "d" ["/a0", "/a1"]
        (initLoopState [[("link", "x")]]
          ⟨"b", 90, [fullUrl "/a0", fullUrl "/a1"]⟩)).fetches = 0 ∧
     (runAds demoFetchOk "d" ["/a0", "/a1"]
        (initLoopState [[("link", "x")]]
          ⟨"b", 90, [fullUrl "/a0", fullUrl "/a1"]⟩)).all_data
       = [[("link", "x")]]) :=
  ⟨claim_C2_cached_skip.1 ⟨"b", 90, ["u1"]⟩ "u1" demoFetchFail "d"
     (by decide),
   claim_C2_cached_skip.2 demoFetchOk "d" ["/a0", "/a1"] [[("link", "x")]]
     ⟨"b", 90, [fullUrl "/a0", fullUrl "/a1"]⟩ (by decide)⟩

/-! ## Pagination lemmas -/

/-- If page `k` has no links, no page beyond `k` is ever visited. -/
theorem collectLoop_stops (pageLinks : Nat → List String) (k : Nat)
    (hk : pageLinks k = []) :
    ∀ (fuel i : Nat), i ≤ k →
      ∀ p ∈ (collectLoop pageLinks i fuel).1, p ≤ k := by
  intro fuel
  induction fuel with
  | zero => intro i _ p hp; simp [collectLoop] at hp
  | succ fuel ih =>
    intro i hi p hp
    by_cases he : (pageLinks i).isEmpty
    · simp only [collectLoop, if_pos he] at hp
      simp at hp
      omega
    · have hik : i ≠ k := by
        rintro rfl
        simp [hk] at he
      simp only [collectLoop, if_neg he] at hp
      simp at hp
      rcases hp with rfl | hp
      · omega
      · exact ih (i + 1) (by omega) p hp

/-- If no page in the budget window is empty, every page of the window is
visited. -/
theorem collectLoop_all (pageLinks : Nat → List String) :
    ∀ (fuel i : Nat),
      (∀ p, i ≤ p → p < i + fuel → pageLinks p ≠ []) →
      (collectLoop pageLinks i fuel).1 = List.range' i fuel := by
  intro fuel
  induction fuel with
  | zero => intro i _; simp [collectLoop]
  | succ fuel ih =>
    intro i h
    have hne : ¬(pageLinks i).isEmpty := by
      simp only [List.isEmpty_iff]
      exact h i (by omega) (by omega)
    simp only [collectLoop, if_neg hne, List.range'_succ]
    rw [ih (i + 1) fun p h1 h2 => h p (by omega) (by omega)]

/-- C4.  The moment a listing page yields zero ad links, pagination
terminates: no later page is visited; and if no page within the budget is
empty, pagination visits exactly pages `1 .. max_pages`. -/
theorem claim_C4_pagination_stop (pageLinks : Nat → List String)
    (max_pages : Nat) :
    (∀ k, 1 ≤ k → pageLinks k = [] →
       ∀ p ∈ (collectLinks pageLinks max_pages).1, p ≤ k) ∧
    ((∀ p, 1 ≤ p → p ≤ max_pages → pageLinks p ≠ []) →
       (collectLinks pageLinks max_pages).1 = List.range' 1 max_pages) := by
  constructor
  · intro k hk he p hp
    exact collectLoop_stops pageLinks k he max_pages 1 hk p hp
  · intro h
    exact collectLoop_all pageLinks max_pages 1
      fun p h1 h2 => h p h1 (by omega)

/-- Witness for C4: a page oracle whose page 4 is empty stops there with a
budget of 9, and a never-empty oracle visits all 9 pages. -/
theorem claim_C4_pagination_stop_witness :
    (∀ p ∈ (collectLinks demoPageLinks 9).1, p ≤ 4) ∧
    (collectLinks (fun _ => ["/adv/1"]) 9).1 = List.range' 1 9 :=
  ⟨(claim_C4_pagination_stop demoPageLinks 9).1 4 (by decide) (by decide),
   (claim_C4_pagination_stop (fun _ => ["/adv/1"]) 9).2
     fun _ _ _ => List.cons_ne_nil _ _⟩

/-- C10.  When every fetch attempt for listing page `k` fails,
`scrape_page` returns the empty list, which `run`'s pagination loop cannot
distinguish from a genuine "no more results" page: no page after `k` is
visited, whatever links the later pages would have had. -/
theorem claim_C10_failed_page_ends_pagination (base : String)
    (fetchP : String → Nat → Except String Soup) (max_pages k : Nat)
    (hk : 1 ≤ k)
    (hfail : ∀ n, ∃ e, fetchP (page_url base k) n = Except.error e) :
    scrape_page (page_url base k) (fetchP (page_url base k)) = [] ∧
    ∀ p ∈ (collectLinks
        (fun n => scrape_page (page_url base n) (fetchP (page_url base n)))
        max_pages).1, p ≤ k := by
  obtain ⟨e0, e1, e2, e3, _, _, _, _, heq⟩ :=
    make_request_allFail (page_url base k) (fetchP (page_url base k)) hfail
  have hpage : scrape_page (page_url base k) (fetchP (page_url base k)) = [] := by
    unfold scrape_page
    rw [heq]
  exact ⟨hpage,
    fun p hp => collectLoop_stops _ k hpage max_pages 1 hk p hp⟩

/-- Witness for C10: page 2 of the demo listing site is unreachable, so
pages beyond 2 are never visited although they do carry links. -/
theorem claim_C10_failed_page_ends_pagination_witness :
    scrape_page (page_url "https://base" 2)
      (demoPageFetch (page_url "https://base" 2)) = [] ∧
    ∀ p ∈ (collectLinks
        (fun n => scrape_page (page_url "https://base" n)
          (demoPageFetch (page_url "https://base" n))) 9).1, p ≤ 2 :=
  claim_C10_failed_page_ends_pagination "https://base" demoPageFetch 9 2
    (by decide) (fun _ => ⟨"net down", rfl⟩)

/-! ## Field-set lemmas -/

/-- A search over nodes none of which match finds nothing. -/
theorem findWithRest_eq_none (p : Node → Bool) :
    ∀ l : List Node, (∀ e ∈ l, p e = false) → findWithRest p l = none := by
  intro l
  induction l with
  | nil => intro _; rfl
  | cons e es ih =>
    intro h
    have he : p e = false := h e (by simp)
    simp only [findWithRest, he]
    exact ih fun e' he' => h e' (by simp [he'])

/-- `setField` never changes the key column. -/
theorem setField_keys (l : AdRecord) (k v : String) :
    (setField l k v).map Prod.fst = l.map Prod.fst := by
  induction l with
  | nil => rfl
  | cons p rest ih =>
    simp only [setField, List.map_cons] at ih ⊢
    by_cases h : p.1 == k
    · simp only [if_pos h, ih]
      simp [(beq_iff_eq.mp h).symm]
    · simp only [if_neg h, ih]

/-- Address handling preserves the key column. -/
theorem applyAddress_keys (soup : Soup) (l : AdRecord) :
    (applyAddress soup l).map Prod.fst = l.map Prod.fst := by
  unfold applyAddress
  cases findWithRest isAddressSpan soup with
  | none => rfl
  | some ar =>
    dsimp only
    split
    · rw [setField_keys, setField_keys]
    · rfl

/-- Views handling preserves the key column. -/
theorem applyViews_keys (soup : Soup) (l : AdRecord) :
    (applyViews soup l).map Prod.fst = l.map Prod.fst := by
  unfold applyViews
  cases findWithRest (fun e => e.tag == "span" && e.classes.contains "counter-views") soup with
  | none => rfl
  | some ar => exact setField_keys ..

/-- Price handling preserves the key column. -/
theorem applyPrice_keys (soup : Soup) (l : AdRecord) :
    (applyPrice soup l).map Prod.fst = l.map Prod.fst := by
  unfold applyPrice
  cases findWithRest (fun e => e.tag == "meta" && e.attrs.lookup "itemprop" == some "price") soup with
  | none => rfl
  | some ar => exact setField_keys ..

/-- Room-count handling preserves the key column. -/
theorem applyRoomCount_keys (soup : Soup) (l : AdRecord) :
    (applyRoomCount soup l).map Prod.fst = l.map Prod.fst := by
  unfold applyRoomCount
  cases findWithRest (fun e => e.tag == "div" && e.classes == ["wrap", "js-single-item__location"]) soup with
  | none => rfl
  | some dr =>
    dsimp only
    cases (descendantsOf dr.1 dr.2).filter (fun e => e.tag == "span") |>.getLast? with
    | none => rfl
    | some s => exact setField_keys ..

/-- Title handling preserves the key column. -/
theorem applyTitle_keys (soup : Soup) (l : AdRecord) :
    (applyTitle soup l).map Prod.fst = l.map Prod.fst := by
  unfold applyTitle
  cases findWithRest (fun e => e.tag == "h1" && e.classes.contains "title-announcement") soup with
  | none => rfl
  | some tr => exact setField_keys ..

/-- Description handling preserves the key column. -/
theorem applyDescription_keys (soup : Soup) (l : AdRecord) :
    (applyDescription soup l).map Prod.fst = l.map Prod.fst := by
  unfold applyDescription
  cases findWithRest (fun e => e.tag == "div" && e.classes.contains "announcement-description") soup with
  | none => rfl
  | some tr => exact setField_keys ..

/-- Posted-date handling preserves the key column. -/
theorem applyPostedDate_keys (soup : Soup) (l : AdRecord) :
    (applyPostedDate soup l).map Prod.fst = l.map Prod.fst := by
  unfold applyPostedDate
  cases findWithRest (fun e => e.tag == "span" && e.classes.contains "date-meta") soup with
  | none => rfl
  | some tr => exact setField_keys ..

/-- Every record `buildAdData` produces has exactly the fixed field set,
in dict insertion order. -/
theorem buildAdData_keys (self : ScraperState) (soup : Soup) (url today : String) :
    (buildAdData self soup url today).map Prod.fst = adFields := by
  unfold buildAdData
  rw [applyPostedDate_keys, applyDescription_keys, applyTitle_keys,
    applyRoomCount_keys, applyPrice_keys, applyViews_keys, applyAddress_keys]
  rfl

/-- C3.  A field whose label span is absent from the document resolves to
the `'N/A'` sentinel — by both extraction helpers — rather than raising or
being dropped; and every record `scrape_ad` returns carries the full fixed
field set. -/
theorem claim_C3_sentinel_full_fields :
    (∀ (soup : Soup) (key : String),
       (∀ e ∈ soup, isSpanWithText key e = false) →
       get_text_value soup key = "N/A" ∧ get_value_chars soup key = "N/A") ∧
    (∀ (self : ScraperState) (url : String)
       (fetch : Nat → Except String Soup) (today : String) (r : AdRecord),
       (scrape_ad self url fetch today).record = some r →
       r.map Prod.fst = adFields) := by
  constructor
  · intro soup key h
    have hn := findWithRest_eq_none (isSpanWithText key) soup h
    constructor
    · unfold get_text_value
      rw [hn]
    · unfold get_value_chars
      rw [hn]
  · intro self url fetch today r hr
    simp only [scrape_ad] at hr
    by_cases hc : url ∈ self.scraped_urls
    · simp [if_pos hc] at hr
    · simp only [if_neg hc] at hr
      cases hresp : (make_request url fetch 0).response with
      | none => rw [hresp] at hr; simp at hr
      | some soup =>
        rw [hresp] at hr
        simp only [Option.some.injEq] at hr
        rw [← hr]
        exact buildAdData_keys self soup url today

/-- Witness for C3: `demoSoup` has no `Тагт:` label, and a successful
scrape of `demoSoup` yields a record with the full field set. -/
theorem claim_C3_sentinel_full_fields_witness :
    (get_text_value demoSoup "Тагт:" = "N/A" ∧
     get_value_chars demoSoup "Тагт:" = "N/A") ∧
    (buildAdData ⟨"b", 90, []⟩ demoSoup "u" "d").map Prod.fst = adFields :=
  ⟨claim_C3_sentinel_full_fields.1 demoSoup "Тагт:" (by decide),
   claim_C3_sentinel_full_fields.2 ⟨"b", 90, []⟩ "u"
     (fun _ => Except.ok demoSoup) "d"
     (buildAdData ⟨"b", 90, []⟩ demoSoup "u" "d")
     (by simp [scrape_ad, make_request])⟩

/-! ## Field-value lemmas -/

/-- `setField` on a cons. -/
theorem setField_cons (p : String × String) (rest : AdRecord) (k v : String) :
    setField (p :: rest) k v =
      (if p.1 == k then (k, v) else p) :: setField rest k v := rfl

/-- `setField` at key `k` does not change the value at a different key. -/
theorem lookup_setField_ne (l : AdRecord) (k v k' : String) (h : k' ≠ k) :
    (setField l k v).lookup k' = l.lookup k' := by
  induction l with
  | nil => rfl
  | cons p rest ih =>
    obtain ⟨pk, pv⟩ := p
    rw [setField_cons]
    by_cases hp : pk == k
    · have hk : pk = k := beq_iff_eq.mp hp
      simp only [if_pos hp, List.lookup_cons,
        show (k' == k) = false from beq_eq_false_iff_ne.mpr h,
        show (k' == pk) = false from beq_eq_false_iff_ne.mpr (hk ▸ h)]
      exact ih
    · simp only [if_neg hp, List.lookup_cons]
      cases hq : k' == pk with
      | true => rfl
      | false => exact ih

/-- `setField` at a present key makes its value the set one. -/
theorem lookup_setField_mem (l : AdRecord) (k v : String)
    (h : k ∈ l.map Prod.fst) : (setField l k v).lookup k = some v := by
  induction l with
  | nil => simp at h
  | cons p rest ih =>
    obtain ⟨pk, pv⟩ := p
    rw [setField_cons]
    by_cases hp : pk == k
    · simp only [if_pos hp, List.lookup_cons, beq_self_eq_true]
    · simp only [if_neg hp, List.lookup_cons]
      have hne : (k == pk) = false := by
        refine beq_eq_false_iff_ne.mpr fun hkp => ?_
        exact hp (beq_iff_eq.mpr hkp.symm)
      simp only [hne]
      have hm : k ∈ rest.map Prod.fst := by
        rcases (by simpa using h : k = pk ∨ k ∈ rest.map Prod.fst) with h1 | h1
        · exact absurd (beq_iff_eq.mpr h1.symm) (by simpa using hp)
        · exact h1
      exact ih hm

/-- The key column of the `ad_data` dict literal is the fixed field set. -/
theorem initAdData_keys (self : ScraperState) (soup : Soup)
    (url today : String) :
    (initAdData self soup url today).map Prod.fst = adFields := rfl

/-- Views handling changes no key but `Үзсэн`. -/
theorem applyViews_lookup_ne (soup : Soup) (l : AdRecord) (k : String)
    (h : k ≠ "Үзсэн") : (applyViews soup l).lookup k = l.lookup k := by
  unfold applyViews
  cases findWithRest (fun e => e.tag == "span" && e.classes.contains "counter-views") soup with
  | none => rfl
  | some vr => exact lookup_setField_ne _ _ _ _ h

/-- Price handling changes no key but `Үнэ`. -/
theorem applyPrice_lookup_ne (soup : Soup) (l : AdRecord) (k : String)
    (h : k ≠ "Үнэ") : (applyPrice soup l).lookup k = l.lookup k := by
  unfold applyPrice
  cases findWithRest (fun e => e.tag == "meta" && e.attrs.lookup "itemprop" == some "price") soup with
  | none => rfl
  | some mr => exact lookup_setField_ne _ _ _ _ h

/-- Room-count handling changes no key but `ӨрөөнийТоо`. -/
theorem applyRoomCount_lookup_ne (soup : Soup) (l : AdRecord) (k : String)
    (h : k ≠ "ӨрөөнийТоо") : (applyRoomCount soup l).lookup k = l.lookup k := by
  unfold applyRoomCount
  cases findWithRest (fun e => e.tag == "div" && e.classes == ["wrap", "js-single-item__location"]) soup with
  | none => rfl
  | some dr =>
    dsimp only
    cases (descendantsOf dr.1 dr.2).filter (fun e => e.tag == "span") |>.getLast? with
    | none => rfl
    | some s => exact lookup_setField_ne _ _ _ _ h

/-- Title handling changes no key but `Зарыг гарчиг`. -/
theorem applyTitle_lookup_ne (soup : Soup) (l : AdRecord) (k : String)
    (h : k ≠ "Зарыг гарчиг") : (applyTitle soup l).lookup k = l.lookup k := by
  unfold applyTitle
  cases findWithRest (fun e => e.tag == "h1" && e.classes.contains "title-announcement") soup with
  | none => rfl
  | some tr => exact lookup_setField_ne _ _ _ _ h

/-- Description handling changes no key but `Зарын тайлбар`. -/
theorem applyDescription_lookup_ne (soup : Soup) (l : AdRecord) (k : String)
    (h : k ≠ "Зарын тайлбар") :
    (applyDescription soup l).lookup k = l.lookup k := by
  unfold applyDescription
  cases findWithRest (fun e => e.tag == "div" && e.classes.contains "announcement-description") soup with
  | none => rfl
  | some tr => exact lookup_setField_ne _ _ _ _ h

/-- Posted-date handling changes no key but `Нийтэлсэн`. -/
theorem applyPostedDate_lookup_ne (soup : Soup) (l : AdRecord) (k : String)
    (h : k ≠ "Нийтэлсэн") : (applyPostedDate soup l).lookup k = l.lookup k := by
  unfold applyPostedDate
  cases findWithRest (fun e => e.tag == "span" && e.classes.contains "date-meta") soup with
  | none => rfl
  | some tr => exact lookup_setField_ne _ _ _ _ h

/-- For keys none of the post-address steps touch, the final record's
value is the one right after address handling. -/
theorem buildAdData_lookup_addr (self : ScraperState) (soup : Soup)
    (url today k : String)
    (hk : k ≠ "Үзсэн" ∧ k ≠ "Үнэ" ∧ k ≠ "ӨрөөнийТоо" ∧ k ≠ "Зарыг гарчиг" ∧
      k ≠ "Зарын тайлбар" ∧ k ≠ "Нийтэлсэн") :
    (buildAdData self soup url today).lookup k =
      (applyAddress soup (initAdData self soup url today)).lookup k := by
  unfold buildAdData
  rw [applyPostedDate_lookup_ne _ _ _ hk.2.2.2.2.2,
    applyDescription_lookup_ne _ _ _ hk.2.2.2.2.1,
    applyTitle_lookup_ne _ _ _ hk.2.2.2.1,
    applyRoomCount_lookup_ne _ _ _ hk.2.2.1,
    applyPrice_lookup_ne _ _ _ hk.2.1,
    applyViews_lookup_ne _ _ _ hk.1]

/-- The `link` column of every built record is the scraped URL. -/
theorem buildAdData_link (self : ScraperState) (soup : Soup)
    (url today : String) :
    (buildAdData self soup url today).lookup "link" = some url := by
  rw [buildAdData_lookup_addr self soup url today "link"
    ⟨by decide, by decide, by decide, by decide, by decide, by decide⟩]
  unfold applyAddress
  cases findWithRest isAddressSpan soup with
  | none => rfl
  | some ar =>
    dsimp only
    split
    · rw [lookup_setField_ne _ _ _ _ (by decide),
        lookup_setField_ne _ _ _ _ (by decide)]
      rfl
    · rfl

/-- C7.  When the address span's text contains an em-dash, the record's
district is the stripped text before the first em-dash and its location
the stripped text after it; when the span exists but its text has no
em-dash, both fields stay at the `'N/A'` sentinel (and nothing raises —
the construction is total). -/
theorem claim_C7_address_split (self : ScraperState) (soup : Soup)
    (url today : String) (a : Node) (rest : List Node)
    (ha : findWithRest isAddressSpan soup = some (a, rest)) :
    (2 ≤ (strSplitOn a.text "—").length →
       (buildAdData self soup url today).lookup "Дүүрэг"
         = some (strTrim ((strSplitOn a.text "—").getD 0 "")) ∧
       (buildAdData self soup url today).lookup "Байршил"
         = some (strTrim ((strSplitOn a.text "—").getD 1 ""))) ∧
    ((strSplitOn a.text "—").length < 2 →
       (buildAdData self soup url today).lookup "Дүүрэг" = some "N/A" ∧
       (buildAdData self soup url today).lookup "Байршил" = some "N/A") := by
  have hD := buildAdData_lookup_addr self soup url today "Дүүрэг"
    ⟨by decide, by decide, by decide, by decide, by decide, by decide⟩
  have hB := buildAdData_lookup_addr self soup url today "Байршил"
    ⟨by decide, by decide, by decide, by decide, by decide, by decide⟩
  rw [hD, hB]
  unfold applyAddress
  rw [ha]
  dsimp only
  constructor
  · intro h2
    rw [if_pos h2]
    constructor
    · rw [lookup_setField_ne _ _ _ _ (by decide)]
      refine lookup_setField_mem _ _ _ ?_
      rw [initAdData_keys]
      decide
    · refine lookup_setField_mem _ _ _ ?_
      rw [setField_keys, initAdData_keys]
      decide
  · intro hlt
    rw [if_neg (by omega)]
    exact ⟨rfl, rfl⟩

/-- Witness for C7: the spec's example address splits into
`"Chingeltei"` / `"64th khoroolol, unit 5"`, and an address without an
em-dash leaves both sentinels. -/
theorem claim_C7_address_split_witness :
    ((buildAdData ⟨"b", 90, []⟩ demoSoup "u" "d").lookup "Дүүрэг"
       = some "Chingeltei" ∧
     (buildAdData ⟨"b", 90, []⟩ demoSoup "u" "d").lookup "Байршил"
       = some "64th khoroolol, unit 5") ∧
    ((buildAdData ⟨"b", 90, []⟩ demoSoupNoDash "u" "d").lookup "Дүүрэг"
       = some "N/A" ∧
     (buildAdData ⟨"b", 90, []⟩ demoSoupNoDash "u" "d").lookup "Байршил"
       = some "N/A") := by
  have h1 := (claim_C7_address_split ⟨"b", 90, []⟩ demoSoup "u" "d"
    ⟨"span", [], [("itemprop", "address")],
      "Chingeltei —  64th khoroolol, unit 5", 1⟩
    [⟨"span", [], [], "Шал:", 1⟩, ⟨"span", [], [], "паркет", 1⟩]
    (by decide)).1 (by decide)
  have h2 := (claim_C7_address_split ⟨"b", 90, []⟩ demoSoupNoDash "u" "d"
    ⟨"span", [], [("itemprop", "address")], "Chingeltei", 1⟩ []
    (by decide)).2 (by decide)
  exact ⟨⟨h1.1.trans (by decide), h1.2.trans (by decide)⟩, h2⟩

/-! ## The ad loop on the success path -/

/-- `buildAdData` does not depend on the scraper state (the state is only
passed through to `generate_ad_id`, which ignores it). -/
theorem buildAdData_state_irrelevant (s1 s2 : ScraperState) (soup : Soup)
    (url today : String) :
    buildAdData s1 soup url today = buildAdData s2 soup url today := rfl

/-- A first-attempt success on an uncached URL: one HTTP attempt, the built
record returned, the URL appended to the cache, request and cache-write
events emitted. -/
theorem scrape_ad_success (self : ScraperState) (url : String)
    (fetch : Nat → Except String Soup) (today : String) (doc : Soup)
    (hc : url ∉ self.scraped_urls) (hf : fetch 0 = Except.ok doc) :
    scrape_ad self url fetch today =
      ⟨some (buildAdData self doc url today), save_scraped_url self url, 1,
        [], [Ev.request url, Ev.cacheWrite url]⟩ := by
  have hm : make_request url fetch 0 = ⟨some doc, 1, []⟩ := by
    rw [make_request, hf]
  simp only [scrape_ad, if_neg hc, hm]

/-- On an all-successful, duplicate-free, uncached link list, the ad loop
appends one record per link, flushes by `flushSpec`, appends every URL to
the cache, and issues exactly one HTTP attempt per link. -/
theorem adLoop_success_eq (fetch : String → Nat → Except String Soup)
    (docFn : String → Soup) (today : String)
    (hf : ∀ u, fetch u 0 = Except.ok (docFn u)) :
    ∀ (links : List String) (i : Nat) (st : LoopState),
      (links.map fullUrl).Nodup →
      (∀ l ∈ links, fullUrl l ∉ st.self.scraped_urls) →
      (adLoop fetch today links i st).all_data
          = st.all_data ++ links.map (recFn docFn today) ∧
      (adLoop fetch today links i st).flushes
          = st.flushes ++
              flushSpec st.all_data (links.map (recFn docFn today)) i ∧
      (adLoop fetch today links i st).self.scraped_urls
          = st.self.scraped_urls ++ links.map fullUrl ∧
      (adLoop fetch today links i st).fetches = st.fetches + links.length := by
  intro links
  induction links with
  | nil => intro i st _ _; simp [adLoop, flushSpec]
  | cons l rest ih =>
    intro i st hnd hdisj
    have hc : fullUrl l ∉ st.self.scraped_urls := hdisj l (by simp)
    have hs := scrape_ad_success st.self (fullUrl l) (fetch (fullUrl l))
      today (docFn (fullUrl l)) hc (hf (fullUrl l))
    have hb : buildAdData st.self (docFn (fullUrl l)) (fullUrl l) today
        = recFn docFn today l := rfl
    have hndr : (rest.map fullUrl).Nodup := by
      simpa using hnd.of_cons
    have hhd : fullUrl l ∉ rest.map fullUrl := by
      have := hnd
      simp only [List.map_cons, List.nodup_cons] at this
      exact this.1
    have hdisj' : ∀ l' ∈ rest,
        fullUrl l' ∉ (save_scraped_url st.self (fullUrl l)).scraped_urls := by
      intro l' hl'
      simp only [save_scraped_url, List.mem_append, List.mem_singleton]
      rintro (hmem | hmem)
      · exact hdisj l' (by simp [hl']) hmem
      · exact hhd (hmem ▸ List.mem_map_of_mem fullUrl hl')
    simp only [adLoop, hs, hb]
    cases h20 : (i % 20 == 0) with
    | true =>
      simp only [h20, if_true]
      obtain ⟨ha, hfl, hca, hfe⟩ := ih (i + 1)
        ⟨st.all_data ++ [recFn docFn today l],
         save_scraped_url st.self (fullUrl l),
         st.flushes ++ [st.all_data ++ [recFn docFn today l]],
         (st.trace ++ [Ev.request (fullUrl l), Ev.cacheWrite (fullUrl l)]) ++
           [Ev.flush (st.all_data ++ [recFn docFn today l])],
         st.fetches + 1⟩ hndr hdisj'
      refine ⟨?_, ?_, ?_, ?_⟩
      · rw [ha]; simp
      · rw [hfl]
        simp only [List.map_cons, flushSpec, h20]
        simp
      · rw [hca]; simp [save_scraped_url]
      · rw [hfe]
        simp only [List.length_cons]
        omega
    | false =>
      simp only [h20, Bool.false_eq_true, if_false]
      obtain ⟨ha, hfl, hca, hfe⟩ := ih (i + 1)
        ⟨st.all_data ++ [recFn docFn today l],
         save_scraped_url st.self (fullUrl l),
         st.flushes,
         st.trace ++ [Ev.request (fullUrl l), Ev.cacheWrite (fullUrl l)],
         st.fetches + 1⟩ hndr hdisj'
      refine ⟨?_, ?_, ?_, ?_⟩
      · rw [ha]; simp
      · rw [hfl]
        simp only [List.map_cons, flushSpec, h20]
        simp
      · rw [hca]; simp [save_scraped_url]
      · rw [hfe]
        simp only [List.length_cons]
        omega

/-- The loop's flush snapshots, in closed form: one flush per index `j`
with `(i + j) % 20 = 0`, each snapshot being the batch so far. -/
theorem flushSpec_eq_filter :
    ∀ (recs base : List AdRecord) (i : Nat),
      flushSpec base recs i =
        ((List.range recs.length).filter fun j => (i + j) % 20 == 0).map
          fun j => base ++ recs.take (j + 1) := by
  intro recs
  induction recs with
  | nil => intro base i; rfl
  | cons r rest ih =>
    intro base i
    have hpred : ((fun j => (i + j) % 20 == 0) ∘ Nat.succ)
        = fun j => (i + 1 + j) % 20 == 0 := by
      funext j
      simp only [Function.comp_apply]
      rw [show i + Nat.succ j = i + 1 + j by omega]
    have hmapf : ((fun j => base ++ (r :: rest).take (j + 1)) ∘ Nat.succ)
        = fun j => base ++ [r] ++ rest.take (j + 1) := by
      funext j
      simp only [Function.comp_apply, Nat.succ_eq_add_one]
      rw [show j + 1 + 1 = (j + 1) + 1 from rfl, List.take_succ_cons]
      simp
    simp only [flushSpec, List.length_cons, List.range_succ_eq_map,
      List.filter_cons, List.filter_map, ih (base ++ [r]) (i + 1)]
    cases h20 : (i % 20 == 0) with
    | true =>
      have h0 : ((i + 0) % 20 == 0) = true := by simpa using h20
      simp only [h0, if_true, h20, List.map_cons, List.map_map, hpred, hmapf]
      simp [List.take_succ_cons]
    | false =>
      have h0 : ((i + 0) % 20 == 0) = false := by simpa using h20
      simp only [h0, Bool.false_eq_true, if_false, h20, List.map_map,
        hpred, hmapf]
      simp

/-- C5.  With 45 discovered ad links — each distinct, uncached and
successfully scraped on the first attempt — exactly 3 flushes occur: after
the 20th link (the batch holds the prior records plus the first 20 new
ones), after the 40th, and the final flush with all 45; each flush's
snapshot extends the previous one by a non-empty row block, i.e. is a
strict superset of its rows. -/
theorem claim_C5_flush_checkpoints
    (fetch : String → Nat → Except String Soup) (docFn : String → Soup)
    (today : String) (links : List String) (existing : List AdRecord)
    (self : ScraperState)
    (hlen : links.length = 45)
    (hf : ∀ u, fetch u 0 = Except.ok (docFn u))
    (hnd : (links.map fullUrl).Nodup)
    (hdisj : ∀ l ∈ links, fullUrl l ∉ self.scraped_urls) :
    (runAds fetch today links (initLoopState existing self)).flushes =
      [existing ++ (links.map (recFn docFn today)).take 20,
       existing ++ (links.map (recFn docFn today)).take 40,
       existing ++ links.map (recFn docFn today)] ∧
    (runAds fetch today links (initLoopState existing self)).flushes.length
      = 3 ∧
    (existing ++ (links.map (recFn docFn today)).take 20).length
      = existing.length + 20 ∧
    (existing ++ (links.map (recFn docFn today)).take 40).length
      = existing.length + 40 ∧
    (existing ++ links.map (recFn docFn today)).length
      = existing.length + 45 ∧
    (∃ d, d ≠ [] ∧
      existing ++ (links.map (recFn docFn today)).take 40
        = (existing ++ (links.map (recFn docFn today)).take 20) ++ d) ∧
    (∃ d, d ≠ [] ∧
      existing ++ links.map (recFn docFn today)
        = (existing ++ (links.map (recFn docFn today)).take 40) ++ d) := by
  obtain ⟨ha, hfl, hca, hfe⟩ := adLoop_success_eq fetch docFn today hf links 1
    (initLoopState existing self) hnd hdisj
  rw [flushSpec_eq_filter] at hfl
  rw [show (initLoopState existing self).all_data = existing from rfl] at ha hfl
  rw [show (initLoopState existing self).flushes = [] from rfl] at hfl
  have hrl : (links.map (recFn docFn today)).length = 45 := by
    simp [hlen]
  rw [hrl] at hfl
  have hfilter :
      (List.range 45).filter (fun j => (1 + j) % 20 == 0) = [19, 39] := by
    decide
  rw [hfilter] at hfl
  simp only [List.map_cons, List.map_nil, List.nil_append,
    Nat.reduceAdd] at hfl
  have hisE : (existing ++ links.map (recFn docFn today)).isEmpty = false := by
    cases hE : existing ++ links.map (recFn docFn today) with
    | nil =>
      obtain ⟨-, h2⟩ := List.append_eq_nil.mp hE
      rw [h2] at hrl
      simp at hrl
    | cons a l => rfl
  have hflush :
      (runAds fetch today links (initLoopState existing self)).flushes =
        [existing ++ (links.map (recFn docFn today)).take 20,
         existing ++ (links.map (recFn docFn today)).take 40,
         existing ++ links.map (recFn docFn today)] := by
    simp only [runAds, ha, hisE, Bool.false_eq_true, if_false]
    rw [hfl]
    rfl
  refine ⟨hflush, by rw [hflush]; rfl, ?_, ?_, ?_, ?_, ?_⟩
  · simp only [List.length_append, List.length_take, hrl]
    omega
  · simp only [List.length_append, List.length_take, hrl]
    omega
  · simp only [List.length_append, hrl]
  · refine ⟨((links.map (recFn docFn today)).drop 20).take 20, ?_, ?_⟩
    · intro hnil
      have hlen0 := congrArg List.length hnil
      simp only [List.length_take, List.length_drop, hrl,
        List.length_nil] at hlen0
      omega
    · rw [show (40 : Nat) = 20 + 20 from rfl, List.take_add,
        List.append_assoc]
  · refine ⟨(links.map (recFn docFn today)).drop 40, ?_, ?_⟩
    · intro hnil
      have hlen0 := congrArg List.length hnil
      simp only [List.length_drop, hrl, List.length_nil] at hlen0
      omega
    · rw [List.append_assoc, List.take_append_drop]

/-- Witness for C5: 45 distinct fresh links, every scrape succeeding. -/
theorem claim_C5_flush_checkpoints_witness :
    (runAds demoFetchOk "d" demoLinks
        (initLoopState [] ⟨"b", 90, []⟩)).flushes =
      [(demoLinks.map (recFn (fun _ => demoSoup) "d")).take 20,
       (demoLinks.map (recFn (fun _ => demoSoup) "d")).take 40,
       demoLinks.map (recFn (fun _ => demoSoup) "d")] ∧
    (runAds demoFetchOk "d" demoLinks
        (initLoopState [] ⟨"b", 90, []⟩)).flushes.length = 3 := by
  have h := claim_C5_flush_checkpoints demoFetchOk (fun _ => demoSoup) "d"
    demoLinks [] ⟨"b", 90, []⟩ (by decide) (fun _ => rfl) (by decide)
    (fun l _ => List.not_mem_nil _)
  exact ⟨by simpa using h.1, h.2.1⟩

/-! ## Trace-ordering lemmas for the cache-before-flush property -/

/-- Extending a trace preserves `cacheBeforeFlush` provided every appended
flush-with-`u` event is justified by a cache write already in the trace. -/
theorem cacheBeforeFlush_append (u : String) (tr es : List Ev)
    (h : cacheBeforeFlush u tr)
    (hes : ∀ e ∈ es, isFlushWith u e = true → Ev.cacheWrite u ∈ tr) :
    cacheBeforeFlush u (tr ++ es) := by
  intro n hex
  obtain ⟨e, he, hfw⟩ := hex
  rw [List.take_append_eq_append_take] at he ⊢
  rcases List.mem_append.mp he with h1 | h1
  · exact List.mem_append_left _ (h n ⟨e, h1, hfw⟩)
  · have hcw : Ev.cacheWrite u ∈ tr := hes e (List.mem_of_mem_take h1) hfw
    have hlen : tr.length ≤ n := by
      by_contra hlt
      push_neg at hlt
      have hz : n - tr.length = 0 := by omega
      rw [hz] at h1
      simp at h1
    rw [List.take_of_length_le hlen]
    exact List.mem_append_left _ hcw

/-- `scrape_ad` emits no flush event. -/
theorem scrape_ad_no_flush_events (u : String) (self : ScraperState)
    (url : String) (fetch : Nat → Except String Soup) (today : String) :
    ∀ e ∈ (scrape_ad self url fetch today).events,
      isFlushWith u e = false := by
  unfold scrape_ad
  by_cases hc : url ∈ self.scraped_urls
  · simp [if_pos hc]
  · simp only [if_neg hc]
    cases (make_request url fetch 0).response with
    | none => simp [isFlushWith]
    | some soup => simp [isFlushWith]

/-- When `scrape_ad` returns a record whose `link` column is `u`, the
cache-write event for `u` is among its emitted events. -/
theorem scrape_ad_record_cacheWrite (u : String) (self : ScraperState)
    (url : String) (fetch : Nat → Except String Soup) (today : String) :
    ∀ d, (scrape_ad self url fetch today).record = some d →
      recHasUrl u d = true →
      Ev.cacheWrite u ∈ (scrape_ad self url fetch today).events := by
  unfold scrape_ad
  by_cases hc : url ∈ self.scraped_urls
  · simp [if_pos hc]
  · simp only [if_neg hc]
    cases (make_request url fetch 0).response with
    | none => simp
    | some soup =>
      intro d hd hr
      simp only [Option.some.injEq] at hd
      rw [← hd] at hr
      unfold recHasUrl at hr
      rw [buildAdData_link] at hr
      have : url = u := by simpa using hr
      subst this
      simp

/-- The loop invariant: if the trace so far satisfies cache-before-flush
and every `u`-record in the batch is already cache-marked in the trace,
then the loop's final trace satisfies cache-before-flush (and the batch
property is maintained). -/
theorem adLoop_cacheBeforeFlush (fetch : String → Nat → Except String Soup)
    (today u : String) :
    ∀ (links : List String) (i : Nat) (st : LoopState),
      cacheBeforeFlush u st.trace →
      ((∃ r ∈ st.all_data, recHasUrl u r = true) →
        Ev.cacheWrite u ∈ st.trace) →
      cacheBeforeFlush u (adLoop fetch today links i st).trace ∧
      ((∃ r ∈ (adLoop fetch today links i st).all_data,
          recHasUrl u r = true) →
        Ev.cacheWrite u ∈ (adLoop fetch today links i st).trace) := by
  intro links
  induction links with
  | nil => intro i st h1 h2; exact ⟨h1, h2⟩
  | cons l rest ih =>
    intro i st h1 h2
    have hnf := scrape_ad_no_flush_events u st.self (fullUrl l)
      (fetch (fullUrl l)) today
    have hrc := scrape_ad_record_cacheWrite u st.self (fullUrl l)
      (fetch (fullUrl l)) today
    have H1' : cacheBeforeFlush u (st.trace ++
        (scrape_ad st.self (fullUrl l) (fetch (fullUrl l)) today).events) :=
      cacheBeforeFlush_append u _ _ h1
        (fun e he hf => absurd hf (by simp [hnf e he]))
    have H2' : (∃ rec ∈
        (match (scrape_ad st.self (fullUrl l) (fetch (fullUrl l)) today).record with
         | some d => st.all_data ++ [d]
         | none => st.all_data),
        recHasUrl u rec = true) →
        Ev.cacheWrite u ∈ st.trace ++
          (scrape_ad st.self (fullUrl l) (fetch (fullUrl l)) today).events := by
      cases hrec : (scrape_ad st.self (fullUrl l) (fetch (fullUrl l)) today).record with
      | none =>
        intro hex
        exact List.mem_append_left _ (h2 hex)
      | some d =>
        intro hex
        obtain ⟨rec, hmem, hhas⟩ := hex
        rcases List.mem_append.mp hmem with hm | hm
        · exact List.mem_append_left _ (h2 ⟨rec, hm, hhas⟩)
        · have hrd : rec = d := by simpa using hm
          subst hrd
          exact List.mem_append_right _ (hrc rec hrec hhas)
    simp only [adLoop]
    cases h20 : (i % 20 == 0) with
    | false =>
      simp only [h20, Bool.false_eq_true, if_false]
      exact ih (i + 1) _ H1' H2'
    | true =>
      simp only [h20, if_true]
      refine ih (i + 1) _ ?_ ?_
      · refine cacheBeforeFlush_append u _ _ H1' ?_
        intro e he hf
        have he' : e = Ev.flush
            (match (scrape_ad st.self (fullUrl l) (fetch (fullUrl l)) today).record with
             | some d => st.all_data ++ [d]
             | none => st.all_data) := by
          simpa using he
        subst he'
        refine H2' ?_
        simpa [isFlushWith, List.any_eq_true] using hf
      · intro hex
        exact List.mem_append_left _ (H2' hex)

/-- C9.  For every ad whose extraction succeeds, the dedup-cache append
happens before the record reaches any store flush: in the run's event
trace, any flush whose snapshot contains a record for URL `u` is preceded
by `cacheWrite u` (provided the pre-loaded snapshot has no record for
`u`).  Consequently, a run interrupted after that cache write but before
the next flush has `u` cached yet unflushed, and on resume `scrape_ad`
skips `u` with zero HTTP attempts and no record — the record is never
re-fetched and stays missing from the output. -/
theorem claim_C9_cache_write_precedes_flush
    (fetch : String → Nat → Except String Soup) (today u : String)
    (links : List String) (existing : List AdRecord) (self : ScraperState)
    (hex : ∀ r ∈ existing, recHasUrl u r = false) :
    cacheBeforeFlush u
      (runAds fetch today links (initLoopState existing self)).trace ∧
    (∀ (s2 : ScraperState) (f2 : Nat → Except String Soup) (t2 : String),
      u ∈ s2.scraped_urls →
      (scrape_ad s2 u f2 t2).fetches = 0 ∧
      (scrape_ad s2 u f2 t2).record = none) := by
  constructor
  · have h0 : cacheBeforeFlush u (initLoopState existing self).trace := by
      intro n hx
      obtain ⟨e, he, -⟩ := hx
      simp [initLoopState] at he
    have hb : (∃ r ∈ (initLoopState existing self).all_data,
        recHasUrl u r = true) →
        Ev.cacheWrite u ∈ (initLoopState existing self).trace := by
      intro hx
      obtain ⟨r, hm, hh⟩ := hx
      rw [hex r hm] at hh
      cases hh
    obtain ⟨H1, H2⟩ := adLoop_cacheBeforeFlush fetch today u links 1
      (initLoopState existing self) h0 hb
    simp only [runAds]
    by_cases hemp :
        (adLoop fetch today links 1 (initLoopState existing self)).all_data.isEmpty
    · simp only [if_pos hemp]
      exact H1
    · simp only [if_neg hemp]
      refine cacheBeforeFlush_append u _ _ H1 ?_
      intro e he hf
      have he' : e = Ev.flush
          (adLoop fetch today links 1 (initLoopState existing self)).all_data := by
        simpa using he
      subst he'
      refine H2 ?_
      simpa [isFlushWith, List.any_eq_true] using hf
  · intro s2 f2 t2 hu
    constructor
    · simp [scrape_ad, if_pos hu]
    · simp [scrape_ad, if_pos hu]

/-- Witness for C9: a one-link run starting from an empty snapshot, and a
resume where the URL is cached. -/
theorem claim_C9_cache_write_precedes_flush_witness :
    cacheBeforeFlush "https://www.unegui.mn/a0"
      (runAds demoFetchOk "d" ["/a0"] (initLoopState [] ⟨"b", 90, []⟩)).trace ∧
    (scrape_ad ⟨"b", 90, ["https://www.unegui.mn/a0"]⟩
       "https://www.unegui.mn/a0" demoFetchFail "d").fetches = 0 ∧
    (scrape_ad ⟨"b", 90, ["https://www.unegui.mn/a0"]⟩
       "https://www.unegui.mn/a0" demoFetchFail "d").record = none := by
  have h := claim_C9_cache_write_precedes_flush demoFetchOk "d"
    "https://www.unegui.mn/a0" ["/a0"] [] ⟨"b", 90, []⟩ (by simp)
  have h2 := h.2 ⟨"b", 90, ["https://www.unegui.mn/a0"]⟩ demoFetchFail "d"
    (by decide)
  exact ⟨h.1, h2.1, h2.2⟩

end UneguiScraperModel
